import Mathlib

/-!
Shallow embedding of the Parquet container-inspection tools of this
repository: the structural phase of `src/fixtures/analyze_parquet.py`
(magic check, footer-length arithmetic, footer-window extraction, hex
rendering) and of `src/tools/pyarrow_verify.py` (size/magic gate,
PyArrow read, expected-data comparison, exit behaviour).

External capabilities (PyArrow's Thrift metadata decoder and table
reader, `json.loads`/`pd.DataFrame` construction of the expected data)
are modelled as explicit parameters carrying their outcome, as the spec
treats them: deterministic external functions the core consumes.
-/

/-- Python slice-index clamping: the effective nonnegative index that
`l[a:b]` uses for one bound, for a list of length `n`.  A negative
index counts from the end and is clamped below at `0`; a nonnegative
index is clamped above at `n`. -/
def pySliceClamp (n : Nat) (i : Int) : Nat :=
  if i < 0 then (max 0 ((n : Int) + i)).toNat else min i.toNat n

/-- Python slicing `l[a:b]` (step 1) over a list: clamp both bounds,
then take the elements in between.  Never reads outside the list. -/
def pySlice {α : Type} (l : List α) (a b : Int) : List α :=
  (l.take (pySliceClamp l.length b)).drop (pySliceClamp l.length a)

/-- `int.from_bytes(bs, byteorder="little")`: little-endian base-256
value of a byte list. -/
def intFromBytesLE : List Nat → Nat
  | [] => 0
  | b :: bs => b + 256 * intFromBytesLE bs

/-- The 4-byte magic marker `b"PAR1"` = `[0x50, 0x41, 0x52, 0x31]`. -/
def PAR1 : List Nat := [80, 65, 82, 49]

/-- `footer_metadata_size = int.from_bytes(content[-8:-4], "little")`
(analyze_parquet.py line 43). -/
def footer_metadata_size (content : List Nat) : Nat :=
  intFromBytesLE (pySlice content (-8) (-4))

/-- `footer_offset = len(content) - footer_metadata_size - 8`
(analyze_parquet.py line 47); kept as an integer because the Python
value can be negative. -/
def footer_offset (content : List Nat) : Int :=
  (content.length : Int) - (footer_metadata_size content : Int) - 8

/-- `footer_metadata = content[footer_offset : footer_offset +
footer_metadata_size]` (analyze_parquet.py line 48), with Python's
slice-clamping semantics. -/
def footer_metadata (content : List Nat) : List Nat :=
  pySlice content (footer_offset content)
    (footer_offset content + (footer_metadata_size content : Int))

/-- Observation points of the structural phase of
`analyze_parquet_file` (analyze_parquet.py lines 37-60), in program
order: the magic-byte report, the printed footer size, the extracted
footer window, and the hand-off to PyArrow's metadata decoder. -/
inductive AnalyzeEvent where
  | magicOk : AnalyzeEvent
  | magicWarning : AnalyzeEvent
  | footerSize (n : Nat) : AnalyzeEvent
  | footerDump (bytes : List Nat) : AnalyzeEvent
  | metadataDecode : AnalyzeEvent
deriving DecidableEq

/-- Structural phase of `analyze_parquet_file` (analyze_parquet.py
lines 37-60): warn (and continue) on missing magic, print the footer
size, extract the footer window, then attempt the external metadata
decode.  The source has no failure path in this phase: Python slicing
cannot raise on out-of-range bounds. -/
def analyze_parquet_file (content : List Nat) : List AnalyzeEvent :=
  (if content.take 4 = PAR1 ∧ pySlice content (-4) (content.length : Int) = PAR1
    then [AnalyzeEvent.magicOk] else [AnalyzeEvent.magicWarning])
  ++ [AnalyzeEvent.footerSize (footer_metadata_size content),
      AnalyzeEvent.footerDump (footer_metadata content),
      AnalyzeEvent.metadataDecode]

/-- Lower-case hexadecimal digits of a natural number (`%x`). -/
def hexDigits (n : Nat) : String := (Nat.toDigits 16 n).asString

/-- Zero-pad on the left to `k` characters (`%0kx` after `hexDigits`). -/
def zpad (k : Nat) (s : String) : String :=
  String.mk (List.replicate (k - s.length) '0' ++ s.data)

/-- `str.ljust(k)`: pad on the right with spaces to length `k`. -/
def ljustS (s : String) (k : Nat) : String :=
  String.mk (s.data ++ List.replicate (k - s.length) ' ')

/-- `f"{b:02x}"`: a byte as two lower-case hex digits. -/
def byteHexStr (b : Nat) : String := zpad 2 (hexDigits b)

/-- ASCII cell of the dump: `chr(b) if 32 <= b <= 126 else "."`
(analyze_parquet.py line 20). -/
def asciiCell (b : Nat) : Char :=
  if 32 ≤ b ∧ b ≤ 126 then Char.ofNat b else '.'

/-- One line of the hex dump (analyze_parquet.py lines 18-21):
`f"{offset+i:08x}: {hex_part.ljust(width*3-1)}  |{ascii_part}|"`. -/
def dumpLine (absOff : Nat) (line_data : List Nat) (width : Nat) : String :=
  zpad 8 (hexDigits absOff) ++ ": " ++
  ljustS (String.intercalate " " (line_data.map byteHexStr)) (width * 3 - 1) ++
  "  |" ++ String.mk (line_data.map asciiCell) ++ "|"

/-- The loop `for i in range(0, len(data), width)` of `hex_dump`
(analyze_parquet.py line 17), one rendered line per `width`-byte block;
`w + 1` is the Python `width`, so the recursion is total without a
positivity side condition. -/
def hex_dump_lines (w : Nat) : List Nat → Nat → List String
  | [], _ => []
  | x :: xs, off =>
      dumpLine off ((x :: xs).take (w + 1)) (w + 1) ::
        hex_dump_lines w ((x :: xs).drop (w + 1)) (off + (w + 1))
termination_by l _ => l.length
decreasing_by simp [List.length_drop]; omega

/-- `hex_dump(data, offset, width)` (analyze_parquet.py lines 12-22):
the joined dump text.  `width = 0` makes Python's `range` step zero and
raises, hence `none`; the unused `length` parameter of the source is
omitted. -/
def hex_dump (data : List Nat) (offset : Nat) (width : Nat) : Option String :=
  match width with
  | 0 => none
  | w + 1 => some (String.intercalate "\n" (hex_dump_lines w data offset))

/-- One column chunk as surfaced by PyArrow's decoded metadata
(analyze_parquet.py lines 87-90): schema path, absolute file offset,
compressed size. -/
structure ColumnChunkMeta where
  path_in_schema : String
  file_offset : Nat
  total_compressed_size : Nat
deriving DecidableEq

instance : Inhabited ColumnChunkMeta := ⟨⟨"", 0, 0⟩⟩

/-- One row group of the decoded metadata (analyze_parquet.py lines
79-90). -/
structure RowGroupMeta where
  num_rows : Nat
  total_byte_size : Nat
  columns : List ColumnChunkMeta
deriving DecidableEq

instance : Inhabited RowGroupMeta := ⟨⟨0, 0, []⟩⟩

/-- Decoded file metadata as consumed by the walk (analyze_parquet.py
lines 78-90): the file-declared ordered list of row groups. -/
structure FileMetadata where
  row_groups : List RowGroupMeta
deriving DecidableEq

/-- `row_group.num_columns`. -/
def RowGroupMeta.num_columns (rg : RowGroupMeta) : Nat := rg.columns.length

/-- `metadata.num_row_groups`. -/
def FileMetadata.num_row_groups (md : FileMetadata) : Nat := md.row_groups.length

/-- `metadata.row_group(i)`: indexed access into the declared order. -/
def FileMetadata.row_group (md : FileMetadata) (i : Nat) : RowGroupMeta :=
  md.row_groups.getD i default

/-- `row_group.column(j)`: indexed access into the schema order. -/
def RowGroupMeta.column (rg : RowGroupMeta) (j : Nat) : ColumnChunkMeta :=
  rg.columns.getD j default

/-- The metadata walk of analyze_parquet.py lines 78-90:
`for i in range(metadata.num_row_groups)` and, inside, `for j in
range(row_group.num_columns)`, yielding each column-chunk descriptor. -/
def walk (md : FileMetadata) : List (List ColumnChunkMeta) :=
  (List.range md.num_row_groups).map (fun i =>
    (List.range (md.row_group i).num_columns).map (fun j =>
      (md.row_group i).column j))

/-- Pandas column dtypes that matter to pyarrow_verify.py line 86:
`int64`, `int32`, and everything else (`object`). -/
inductive Dtype where
  | int64 : Dtype
  | int32 : Dtype
  | object : Dtype
deriving DecidableEq

/-- A cell value of a decoded table: an integer or a string. -/
inductive Value where
  | vint (n : Int) : Value
  | vstr (s : String) : Value
deriving DecidableEq

/-- Pandas value ordering used by `sort_values`: integers by numeric
order, strings lexicographically; the cross-type case (which pandas
would raise on) is oriented int-before-str to keep the relation total. -/
def Value.le (a b : Value) : Bool :=
  match a, b with
  | .vint x, .vint y => decide (x ≤ y)
  | .vint _, .vstr _ => true
  | .vstr _, .vint _ => false
  | .vstr x, .vstr y => decide (x ≤ y)

/-- A pandas DataFrame at the granularity the tool observes: column
names, per-column dtypes, and rows (each row parallel to `colNames`). -/
structure DataFrame where
  colNames : List String
  dtypes : List Dtype
  rows : List (List Value)
deriving DecidableEq

/-- The sort key of pyarrow_verify.py line 90: the value of the first
column of a row. -/
def firstCell (r : List Value) : Value := r.getD 0 (Value.vint 0)

/-- Row ordering by the first column's value. -/
def rowLe (a b : List Value) : Prop :=
  Value.le (firstCell a) (firstCell b) = true

instance : DecidableRel rowLe := fun a b =>
  if h : Value.le (firstCell a) (firstCell b) = true
  then Decidable.isTrue h else Decidable.isFalse h

/-- `df.sort_values(by=df.columns.tolist()[0]).reset_index(drop=True)`
(pyarrow_verify.py lines 90-91): rows reordered by the first column's
value. -/
def sort_values (df : DataFrame) : DataFrame :=
  { df with rows := List.insertionSort rowLe df.rows }

/-- `set(df.columns) == set(expected_df.columns)` (pyarrow_verify.py
line 76): order-insensitive equality of the column-name sets. -/
def nameSetEq (a b : List String) : Prop := ∀ n, n ∈ a ↔ n ∈ b

instance (a b : List String) : Decidable (nameSetEq a b) :=
  decidable_of_iff ((∀ n ∈ a, n ∈ b) ∧ (∀ n ∈ b, n ∈ a)) (by
    constructor
    · rintro ⟨h1, h2⟩ n; exact ⟨h1 n, h2 n⟩
    · intro h; exact ⟨fun n hn => (h n).1 hn, fun n hn => (h n).2 hn⟩)

/-- Position of a column name in a frame's declared order. -/
def colIndex (e : DataFrame) (n : String) : Option Nat :=
  List.indexOf? n e.colNames

/-- `expected_df = expected_df[df.columns.tolist()]` (pyarrow_verify.py
line 82): reindex the expected frame's columns into the file frame's
order (every requested name is present when the preceding set check
passed). -/
def reorderDF (names : List String) (e : DataFrame) : DataFrame :=
  { colNames := names,
    dtypes := names.map (fun n =>
      match colIndex e n with
      | some i => e.dtypes.getD i Dtype.object
      | none => Dtype.object),
    rows := e.rows.map (fun r => names.map (fun n =>
      match colIndex e n with
      | some i => r.getD i (Value.vint 0)
      | none => Value.vint 0)) }

/-- Whether a dtype triggers the coercion of pyarrow_verify.py line 86. -/
def Dtype.isIntType : Dtype → Bool
  | .int64 => true
  | .int32 => true
  | .object => false

/-- `astype` of one cell to an integer dtype: integer cells survive,
string cells raise. -/
def castCell (d : Dtype) (v : Value) : Except String Value :=
  if d.isIntType then
    match v with
    | .vint n => Except.ok (Value.vint n)
    | .vstr _ => Except.error "invalid literal for int"
  else Except.ok v

/-- Cast the cells of one row against the file frame's dtypes
(the loop of pyarrow_verify.py lines 85-87, row view). -/
def castRow : List Dtype → List Value → Except String (List Value)
  | [], vs => Except.ok vs
  | _ :: _, [] => Except.ok []
  | d :: ds, v :: vs =>
    match castCell d v, castRow ds vs with
    | Except.ok w, Except.ok ws => Except.ok (w :: ws)
    | Except.error e, _ => Except.error e
    | Except.ok _, Except.error e => Except.error e

/-- Cast every row; the first failing cell aborts, as the raised
`astype` exception does. -/
def castRows (ds : List Dtype) : List (List Value) → Except String (List (List Value))
  | [] => Except.ok []
  | r :: rs =>
    match castRow ds r, castRows ds rs with
    | Except.ok w, Except.ok ws => Except.ok (w :: ws)
    | Except.error e, _ => Except.error e
    | Except.ok _, Except.error e => Except.error e

/-- Resulting dtypes after the coercion loop: integer-typed file
columns impose their width on the expected frame, others are kept. -/
def coerceDtypes (dfDts eDts : List Dtype) : List Dtype :=
  List.zipWith (fun dd ed => if dd.isIntType then dd else ed) dfDts eDts

/-- The coercion loop of pyarrow_verify.py lines 84-87:
`expected_df[col] = expected_df[col].astype(df[col].dtype)` for every
integer-typed column of `df`. -/
def castDF (dfDts : List Dtype) (e : DataFrame) : Except String DataFrame :=
  match castRows dfDts e.rows with
  | Except.ok rs =>
    Except.ok { colNames := e.colNames, dtypes := coerceDtypes dfDts e.dtypes, rows := rs }
  | Except.error err => Except.error err

/-- Rendering of a column-name list inside the mismatch message. -/
def listRepr (names : List String) : String := String.intercalate ", " names

/-- The message of pyarrow_verify.py line 78. -/
def columnMismatchMsg (got expected : List String) : String :=
  "Column mismatch: got " ++ listRepr got ++ ", expected " ++ listRepr expected

/-- Outcome of the expected-data comparison block (pyarrow_verify.py
lines 70-103): either the early `return` of line 79 on a column-set
mismatch, or a completed comparison carrying the match flag, the error
recorded by the inner `except` (if any), and the mismatch samples. -/
inductive CompareOut where
  | colMismatch (msg : String) : CompareOut
  | cmp (matchFlag : Bool) (err : Option String)
      (actual expected : Option (List (List Value))) : CompareOut
deriving DecidableEq

/-- The comparison block of pyarrow_verify.py lines 70-103.  `parsed`
is the outcome of `json.loads` + `pd.DataFrame` (line 72-73), an
external capability; its failure, a failing `astype`, and the
`IndexError` of line 90 on a zero-column frame all land in the inner
`except` (lines 101-103). -/
def compareData (df : DataFrame) (parsed : Except String DataFrame) : CompareOut :=
  match parsed with
  | Except.error e =>
    CompareOut.cmp false (some ("Error comparing data: " ++ e)) none none
  | Except.ok expected_df =>
    if nameSetEq df.colNames expected_df.colNames then
      match castDF df.dtypes (reorderDF df.colNames expected_df) with
      | Except.error e =>
        CompareOut.cmp false (some ("Error comparing data: " ++ e)) none none
      | Except.ok e2 =>
        match df.colNames with
        | [] =>
          CompareOut.cmp false
            (some "Error comparing data: list index out of range") none none
        | _ :: _ =>
          let sorted_df := sort_values df
          let sorted_expected := sort_values e2
          if sorted_df = sorted_expected then
            CompareOut.cmp true none none none
          else
            CompareOut.cmp false none (some (sorted_df.rows.take 5))
              (some (sorted_expected.rows.take 5))
    else CompareOut.colMismatch (columnMismatchMsg df.colNames expected_df.colNames)

/-- The result dictionary of pyarrow_verify.py lines 19-26 (plus the
two extra keys set at lines 99-100). -/
structure VResult where
  success : Bool
  error : Option String
  row_count : Nat
  columns : List String
  data_matches : Option Bool
  data_sample : Option (List (List Value))
  actual_data : Option (List (List Value))
  expected_data : Option (List (List Value))
deriving DecidableEq

/-- The initial result dictionary (pyarrow_verify.py lines 19-26). -/
def initResult : VResult :=
  { success := false, error := none, row_count := 0, columns := [],
    data_matches := none, data_sample := none,
    actual_data := none, expected_data := none }

/-- How a call to `verify_parquet` ends: `sys.exit(code)` after
printing a result, or a normal return of the result to `__main__`. -/
inductive PyOutcome where
  | exited (result : VResult) (code : Nat) : PyOutcome
  | returned (result : VResult) : PyOutcome
deriving DecidableEq

/-- The tail of `verify_parquet` once the table has been read
successfully (pyarrow_verify.py lines 64-106): record success, row
count and columns, run the expected-data comparison when an argument
was supplied — the early `return` of line 79 skips the `data_sample`
assignment of line 105, every other path reaches it. -/
def verifyWithDF (df : DataFrame)
    (expectedArg : Option (Except String DataFrame)) : VResult :=
  let base := { initResult with
                  success := true, row_count := df.rows.length,
                  columns := df.colNames }
  match expectedArg with
  | none => { base with data_sample := some (df.rows.take 5) }
  | some parsed =>
    match compareData df parsed with
    | CompareOut.colMismatch msg =>
      { base with data_matches := some false, error := some msg }
    | CompareOut.cmp m err act exp =>
      { base with
          data_matches := some m, error := err,
          actual_data := act, expected_data := exp,
          data_sample := some (df.rows.take 5) }

/-- `verify_parquet(file_path, expected_data)` (pyarrow_verify.py lines
8-112).  `readResult` is the outcome of the external
`pq.read_table` + `to_pandas` (lines 60-62); `expectedArg` models the
optional `expected_data` argument together with the outcome of its
external parse (lines 72-73).  The interpolated parts of the
diagnostic messages are elided; the magic-byte message is the
source's literal text. -/
def verify_parquet (fileExists : Bool) (content : List Nat)
    (readResult : Except String DataFrame)
    (expectedArg : Option (Except String DataFrame)) : PyOutcome :=
  if ¬ fileExists then
    PyOutcome.exited { initResult with error := some "File does not exist" } 1
  else if content.length < 8 then
    PyOutcome.exited { initResult with error := some "File is too small" } 1
  else if ¬ (content.take 4 = PAR1 ∧ content.drop (content.length - 4) = PAR1) then
    PyOutcome.exited
      { initResult with error := some "Not a Parquet file. Missing PAR1 magic bytes." } 1
  else
    match readResult with
    | Except.error e => PyOutcome.returned { initResult with error := some e }
    | Except.ok df => PyOutcome.returned (verifyWithDF df expectedArg)

/-- The `__main__` block of pyarrow_verify.py (lines 114-130): exit 1
without a path argument, otherwise run `verify_parquet` (whose own
`sys.exit` calls propagate) and exit 0 after printing the result. -/
def pyarrow_verify_main (hasPathArg : Bool) (fileExists : Bool) (content : List Nat)
    (readResult : Except String DataFrame)
    (expectedArg : Option (Except String DataFrame)) : Nat :=
  if ¬ hasPathArg then 1
  else
    match verify_parquet fileExists content readResult expectedArg with
    | PyOutcome.exited _ code => code
    | PyOutcome.returned _ => 0

/-! ## Helper lemmas -/

theorem range_map_getD_comp {α β : Type} (g : α → β) (d : α) (l : List α) :
    (List.range l.length).map (fun i => g (l.getD i d)) = l.map g := by
  induction l with
  | nil => rfl
  | cons a t ih =>
    rw [List.length_cons, List.range_succ_eq_map, List.map_cons, List.map_map,
      List.map_cons]
    exact congrArg₂ (· :: ·) rfl
      ((List.map_congr_left (fun i _ => rfl)).trans ih)

theorem range_map_getD {α : Type} (d : α) (l : List α) :
    (List.range l.length).map (fun i => l.getD i d) = l := by
  have h := range_map_getD_comp (fun a => a) d l
  simpa using h

/-- C5: the metadata walk enumerates row groups in file-declared order
(index 0 first) and, inside each, column chunks in schema-declared
order — the indexed double loop yields exactly the declared nested
lists — and walking the same decoded metadata twice yields identical
sequences. -/
theorem walk_declared_order_and_idempotent (md : FileMetadata) :
    walk md = md.row_groups.map (fun rg => rg.columns) ∧ walk md = walk md := by
  refine ⟨?_, rfl⟩
  unfold walk FileMetadata.num_row_groups FileMetadata.row_group
  have houter := range_map_getD_comp
    (fun rg : RowGroupMeta =>
      (List.range rg.num_columns).map (fun j => rg.column j))
    default md.row_groups
  rw [houter]
  refine List.map_congr_left (fun rg _ => ?_)
  unfold RowGroupMeta.num_columns RowGroupMeta.column
  exact range_map_getD default rg.columns

theorem hex_dump_lines_spec (w : Nat) (data : List Nat) (off : Nat) :
    hex_dump_lines w data off =
      (List.range ((data.length + w) / (w + 1))).map (fun ri =>
        dumpLine (off + ri * (w + 1)) ((data.drop (ri * (w + 1))).take (w + 1)) (w + 1)) := by
  suffices h : ∀ (n : Nat) (data : List Nat) (off : Nat), data.length = n →
      hex_dump_lines w data off =
        (List.range ((data.length + w) / (w + 1))).map (fun ri =>
          dumpLine (off + ri * (w + 1)) ((data.drop (ri * (w + 1))).take (w + 1)) (w + 1)) by
    exact h data.length data off rfl
  intro n
  induction n using Nat.strong_induction_on with
  | _ n ih =>
    intro data off hn
    cases data with
    | nil =>
      simp [hex_dump_lines, Nat.div_eq_of_lt (show w < w + 1 by omega)]
    | cons x xs =>
      rw [hex_dump_lines]
      have hlen : (x :: xs).length = xs.length + 1 := rfl
      have hcount : ((x :: xs).length + w) / (w + 1) = xs.length / (w + 1) + 1 := by
        rw [hlen]
        have h2 : xs.length + 1 + w = xs.length + (w + 1) := by omega
        rw [h2, Nat.add_div_right _ (Nat.succ_pos w)]
      rw [hcount, List.range_succ_eq_map, List.map_cons, List.map_map]
      have hdrop : ((x :: xs).drop (w + 1)).length = xs.length - w := by
        simp [List.length_drop]
      have ihh := ih (xs.length - w) (by omega) ((x :: xs).drop (w + 1)) (off + (w + 1)) hdrop
      rw [ihh, hdrop]
      have hcnt2 : (xs.length - w + w) / (w + 1) = xs.length / (w + 1) := by
        rcases le_or_lt w xs.length with h | h
        · congr 1; omega
        · rw [Nat.div_eq_of_lt (by omega), Nat.div_eq_of_lt (by omega)]
      rw [hcnt2]
      refine congrArg₂ (· :: ·) (by simp) ?_
      refine List.map_congr_left (fun ri _ => ?_)
      show dumpLine (off + (w + 1) + ri * (w + 1)) ((((x :: xs).drop (w + 1)).drop (ri * (w + 1))).take (w + 1)) (w + 1)
        = dumpLine (off + (ri + 1) * (w + 1)) (((x :: xs).drop ((ri + 1) * (w + 1))).take (w + 1)) (w + 1)
      rw [List.drop_drop]
      have e1 : off + (w + 1) + ri * (w + 1) = off + (ri + 1) * (w + 1) := by ring_nf
      have e2 : w + 1 + ri * (w + 1) = (ri + 1) * (w + 1) := by ring_nf
      rw [e1, e2]

/-- C9: for every byte sequence, base offset and positive width, the
hex renderer returns (never fails): one line per `width`-byte block,
the line for row `ri` rendering bytes `[ri*width, ri*width+width)` at
absolute offset `offset + ri*width`; printable bytes `32..126` render
as their character and every other byte as a dot. -/
theorem hex_dump_renders_rows (data : List Nat) (offset width : Nat) (h : 0 < width) :
    hex_dump data offset width =
      some (String.intercalate "\n"
        ((List.range ((data.length + (width - 1)) / width)).map (fun ri =>
          dumpLine (offset + ri * width) ((data.drop (ri * width)).take width) width)))
    ∧ (∀ b : Nat, 32 ≤ b → b ≤ 126 → asciiCell b = Char.ofNat b)
    ∧ (∀ b : Nat, ¬ (32 ≤ b ∧ b ≤ 126) → asciiCell b = '.') := by
  refine ⟨?_, fun b h1 h2 => by simp [asciiCell, h1, h2], fun b hb => by simp [asciiCell, hb]⟩
  cases width with
  | zero => omega
  | succ w =>
    rw [hex_dump]
    rw [hex_dump_lines_spec]
    rfl

/-- Witness for C9 at the four magic bytes, offset 0, width 16. -/
theorem hex_dump_renders_rows_witness :
    0 < 16 ∧
    (hex_dump [80, 65, 82, 49] 0 16 =
        some (String.intercalate "\n"
          ((List.range ((([80, 65, 82, 49] : List Nat).length + (16 - 1)) / 16)).map (fun ri =>
            dumpLine (0 + ri * 16) ((([80, 65, 82, 49] : List Nat).drop (ri * 16)).take 16) 16)))
      ∧ (∀ b : Nat, 32 ≤ b → b ≤ 126 → asciiCell b = Char.ofNat b)
      ∧ (∀ b : Nat, ¬ (32 ≤ b ∧ b ≤ 126) → asciiCell b = '.')) :=
  ⟨by decide, hex_dump_renders_rows [80, 65, 82, 49] 0 16 (by decide)⟩

theorem intFromBytesLE_lt (l : List Nat) (h : ∀ b ∈ l, b < 256) :
    intFromBytesLE l < 256 ^ l.length := by
  induction l with
  | nil => simp [intFromBytesLE]
  | cons b bs ih =>
    have hb : b < 256 := h b (List.mem_cons_self b bs)
    have hrec := ih (fun x hx => h x (List.mem_cons_of_mem b hx))
    rw [intFromBytesLE, List.length_cons, pow_succ]
    calc b + 256 * intFromBytesLE bs
        ≤ 255 + 256 * intFromBytesLE bs := by omega
      _ < 256 * (intFromBytesLE bs + 1) := by omega
      _ ≤ 256 * 256 ^ bs.length := Nat.mul_le_mul_left 256 (by omega)
      _ = 256 ^ bs.length * 256 := by ring

/-- C1 (amended): for every byte sequence of length `N >= 8`, the
footer length is the little-endian integer of bytes `[N-8, N-4)` (a
`u32` when the bytes are genuine bytes), and — provided that length
fits, i.e. `length <= N-8` — the extracted footer window is exactly
the bytes `[N-8-length, N-8)`.  Without the bound the Python slice
clamps instead (see the counterexample). -/
theorem footer_length_field_and_window (c : List Nat) (h8 : 8 ≤ c.length) :
    footer_metadata_size c = intFromBytesLE ((c.drop (c.length - 8)).take 4)
    ∧ ((∀ b ∈ c, b < 256) → footer_metadata_size c < 2 ^ 32)
    ∧ (footer_metadata_size c ≤ c.length - 8 →
        footer_metadata c =
          (c.drop (c.length - 8 - footer_metadata_size c)).take (footer_metadata_size c)) := by
  have hslice : pySlice c (-8) (-4) = (c.drop (c.length - 8)).take 4 := by
    have h1 : pySliceClamp c.length (-8) = c.length - 8 := by
      unfold pySliceClamp; split <;> omega
    have h2 : pySliceClamp c.length (-4) = c.length - 4 := by
      unfold pySliceClamp; split <;> omega
    unfold pySlice
    rw [h1, h2, List.drop_take]
    congr 1
    omega
  refine ⟨?_, ?_, ?_⟩
  · unfold footer_metadata_size
    rw [hslice]
  · intro hbytes
    unfold footer_metadata_size
    rw [hslice]
    have hmem : ∀ b ∈ (c.drop (c.length - 8)).take 4, b < 256 := fun b hb =>
      hbytes b (((List.take_sublist _ _).trans (List.drop_sublist _ _)).mem hb)
    have hlen : ((c.drop (c.length - 8)).take 4).length ≤ 4 := by
      simp [List.length_take]
    calc intFromBytesLE ((c.drop (c.length - 8)).take 4)
        < 256 ^ ((c.drop (c.length - 8)).take 4).length := intFromBytesLE_lt _ hmem
      _ ≤ 256 ^ 4 := Nat.pow_le_pow_right (by omega) hlen
      _ = 2 ^ 32 := by norm_num
  · intro hs
    have h1 : pySliceClamp c.length (footer_offset c) =
        c.length - 8 - footer_metadata_size c := by
      unfold pySliceClamp footer_offset
      split <;> omega
    have h2 : pySliceClamp c.length
        (footer_offset c + (footer_metadata_size c : Int)) = c.length - 8 := by
      unfold pySliceClamp footer_offset
      split <;> omega
    unfold footer_metadata pySlice
    rw [h1, h2, List.drop_take]
    congr 1
    omega

/-- A 12-byte file whose trailing length field claims 100 bytes of
footer metadata — more than the 4 bytes that precede the field. -/
def badContent : List Nat := [80, 65, 82, 49, 100, 0, 0, 0, 80, 65, 82, 49]

/-- A well-formed 15-byte file: magic, 3 payload bytes, length field 3,
magic. -/
def okContent : List Nat := [80, 65, 82, 49, 9, 9, 9, 3, 0, 0, 0, 80, 65, 82, 49]

/-- Counterexample to C1 as stated: on `badContent` (N = 12, length
field = 100) the extracted window has 4 bytes, not the 100 the claimed
range `[N-8-length, N-8)` would have — the code clamps instead of
extracting that range. -/
theorem footer_window_oversize_counterexample :
    footer_metadata_size badContent = 100
    ∧ 8 ≤ badContent.length
    ∧ (footer_metadata badContent).length ≠ footer_metadata_size badContent := by decide

/-- Witness for C1 (amended) at `okContent`. -/
theorem footer_length_field_and_window_witness :
    8 ≤ okContent.length ∧
    (footer_metadata_size okContent =
        intFromBytesLE ((okContent.drop (okContent.length - 8)).take 4)
      ∧ ((∀ b ∈ okContent, b < 256) → footer_metadata_size okContent < 2 ^ 32)
      ∧ (footer_metadata_size okContent ≤ okContent.length - 8 →
          footer_metadata okContent =
            (okContent.drop
              (okContent.length - 8 - footer_metadata_size okContent)).take
              (footer_metadata_size okContent))) :=
  ⟨by decide, footer_length_field_and_window okContent (by decide)⟩

/-- Counterexample to C2 as stated: on `badContent` the length field
(100) exceeds `N - 8 = 4`, yet the analysis locator raises no
`InvalidFooterBounds` error — it has no bounds check at all — and the
metadata decode is still attempted afterwards. -/
theorem footer_bounds_no_failure_counterexample :
    footer_metadata_size badContent > badContent.length - 8
    ∧ analyze_parquet_file badContent =
        [AnalyzeEvent.magicOk, AnalyzeEvent.footerSize 100,
         AnalyzeEvent.footerDump [80, 65, 82, 49], AnalyzeEvent.metadataDecode]
    ∧ AnalyzeEvent.metadataDecode ∈ analyze_parquet_file badContent := by decide

/-- C2 (amended): the locator never fails and never reads outside the
file's bounds — Python slice clamping keeps the extracted window a
sublist of the file for every input, and processing always continues
to the metadata decode, even when the length field exceeds `N-8`. -/
theorem footer_window_clamped_in_bounds (c : List Nat) :
    (footer_metadata c).Sublist c ∧ AnalyzeEvent.metadataDecode ∈ analyze_parquet_file c := by
  constructor
  · unfold footer_metadata pySlice
    exact (List.drop_sublist _ _).trans (List.take_sublist _ _)
  · unfold analyze_parquet_file
    simp

theorem verify_reaches_read (c : List Nat) (df : DataFrame)
    (ea : Option (Except String DataFrame))
    (h8 : 8 ≤ c.length) (hm1 : c.take 4 = PAR1) (hm2 : c.drop (c.length - 4) = PAR1) :
    verify_parquet true c (Except.ok df) ea = PyOutcome.returned (verifyWithDF df ea) := by
  unfold verify_parquet
  rw [if_neg (by simp), if_neg (by omega), if_neg (not_not_intro ⟨hm1, hm2⟩)]

theorem compareData_ok_not_setEq (df e2 : DataFrame)
    (hset : ¬ nameSetEq df.colNames e2.colNames) :
    compareData df (Except.ok e2) =
      CompareOut.colMismatch (columnMismatchMsg df.colNames e2.colNames) := by
  simp only [compareData]
  rw [if_neg hset]

theorem compareData_cmp_of_setEq (df edf : DataFrame)
    (hset : nameSetEq df.colNames edf.colNames) :
    ∃ m err act exp, compareData df (Except.ok edf) = CompareOut.cmp m err act exp := by
  rcases h : compareData df (Except.ok edf) with msg | ⟨m, err, act, exp⟩
  · exfalso
    simp only [compareData] at h
    rw [if_pos hset] at h
    split at h
    · exact CompareOut.noConfusion h
    · split at h
      · exact CompareOut.noConfusion h
      · split at h
        · exact CompareOut.noConfusion h
        · exact CompareOut.noConfusion h
  · exact ⟨m, err, act, exp, rfl⟩

/-- C10: once the size and magic checks have passed and the table was
read successfully, the verification result is a normal return whose
`success` flag is `true`, for every expected-data argument — including
a failing comparison or a comparison exception; nothing after the read
resets `success`. -/
theorem verify_success_invariant (c : List Nat) (df : DataFrame)
    (ea : Option (Except String DataFrame))
    (h8 : 8 ≤ c.length) (hm1 : c.take 4 = PAR1) (hm2 : c.drop (c.length - 4) = PAR1) :
    ∃ r, verify_parquet true c (Except.ok df) ea = PyOutcome.returned r
      ∧ r.success = true := by
  rw [verify_reaches_read c df ea h8 hm1 hm2]
  refine ⟨_, rfl, ?_⟩
  unfold verifyWithDF
  cases ea with
  | none => rfl
  | some parsed =>
    rcases h : compareData df parsed with msg | ⟨m, err, act, exp⟩ <;> simp only [h]

/-- Witness for C10 at a conforming 15-byte file with no expected data. -/
theorem verify_success_invariant_witness :
    (8 ≤ okContent.length ∧ okContent.take 4 = PAR1
      ∧ okContent.drop (okContent.length - 4) = PAR1)
    ∧ ∃ r, verify_parquet true okContent
        (Except.ok { colNames := ["x"], dtypes := [Dtype.int64],
                     rows := [[Value.vint 1]] }) none = PyOutcome.returned r
      ∧ r.success = true :=
  ⟨⟨by decide, by decide, by decide⟩,
    verify_success_invariant okContent
      { colNames := ["x"], dtypes := [Dtype.int64], rows := [[Value.vint 1]] } none
      (by decide) (by decide) (by decide)⟩

/-- C6: an expected frame whose column-name set differs (the check is
`set` equality, order-insensitive) yields `data_matches = false` with
the column-mismatch message and returns early: the result is exactly
the early-return record — in particular no row comparison happened,
and the result does not depend on the expected rows at all. -/
theorem verify_column_mismatch_short_circuits (c : List Nat) (df edf : DataFrame)
    (h8 : 8 ≤ c.length) (hm1 : c.take 4 = PAR1) (hm2 : c.drop (c.length - 4) = PAR1)
    (hset : ¬ nameSetEq df.colNames edf.colNames) :
    verify_parquet true c (Except.ok df) (some (Except.ok edf)) =
      PyOutcome.returned
        { success := true, error := some (columnMismatchMsg df.colNames edf.colNames),
          row_count := df.rows.length, columns := df.colNames,
          data_matches := some false, data_sample := none,
          actual_data := none, expected_data := none }
    ∧ ∀ rows2 : List (List Value),
        verify_parquet true c (Except.ok df)
            (some (Except.ok { colNames := edf.colNames, dtypes := edf.dtypes,
                               rows := rows2 })) =
          verify_parquet true c (Except.ok df) (some (Except.ok edf)) := by
  constructor
  · rw [verify_reaches_read c df _ h8 hm1 hm2]
    simp only [verifyWithDF, compareData_ok_not_setEq df edf hset]
    rfl
  · intro rows2
    rw [verify_reaches_read c df _ h8 hm1 hm2, verify_reaches_read c df _ h8 hm1 hm2]
    simp only [verifyWithDF, compareData_ok_not_setEq df edf hset,
      compareData_ok_not_setEq df
        { colNames := edf.colNames, dtypes := edf.dtypes, rows := rows2 } hset]

/-- A two-column frame with distinct first-column values. -/
def dfKeys : DataFrame :=
  { colNames := ["x", "y"], dtypes := [Dtype.int64, Dtype.object],
    rows := [[Value.vint 2, Value.vstr "b"], [Value.vint 1, Value.vstr "a"]] }

/-- The same rows as `dfKeys` in reversed row order with the two
columns swapped and the integer column declared at a narrower width. -/
def eKeys : DataFrame :=
  { colNames := ["y", "x"], dtypes := [Dtype.object, Dtype.int32],
    rows := [[Value.vstr "a", Value.vint 1], [Value.vstr "b", Value.vint 2]] }

/-- `eKeys` after the code's own reorder-and-coerce alignment. -/
def eKeysAligned : DataFrame :=
  { colNames := ["x", "y"], dtypes := [Dtype.int64, Dtype.object],
    rows := [[Value.vint 1, Value.vstr "a"], [Value.vint 2, Value.vstr "b"]] }

/-- An expected frame with an extra column `z`. -/
def dfExtraCol : DataFrame :=
  { colNames := ["x", "y", "z"],
    dtypes := [Dtype.int64, Dtype.object, Dtype.object], rows := [] }

/-- A frame whose two rows share the first-column value `1`. -/
def dfTie : DataFrame :=
  { colNames := ["x", "y"], dtypes := [Dtype.int64, Dtype.object],
    rows := [[Value.vint 1, Value.vstr "a"], [Value.vint 1, Value.vstr "b"]] }

/-- The same rows as `dfTie` in the opposite order. -/
def eTie : DataFrame :=
  { colNames := ["x", "y"], dtypes := [Dtype.int64, Dtype.object],
    rows := [[Value.vint 1, Value.vstr "b"], [Value.vint 1, Value.vstr "a"]] }

/-- Witness for C6 at `okContent`, `dfKeys` against the extra-column
frame; the skipped row comparison is instanced at empty rows. -/
theorem verify_column_mismatch_short_circuits_witness :
    (8 ≤ okContent.length ∧ okContent.take 4 = PAR1
      ∧ okContent.drop (okContent.length - 4) = PAR1
      ∧ ¬ nameSetEq dfKeys.colNames dfExtraCol.colNames)
    ∧ verify_parquet true okContent (Except.ok dfKeys) (some (Except.ok dfExtraCol)) =
        PyOutcome.returned
          { success := true,
            error := some (columnMismatchMsg dfKeys.colNames dfExtraCol.colNames),
            row_count := dfKeys.rows.length, columns := dfKeys.colNames,
            data_matches := some false, data_sample := none,
            actual_data := none, expected_data := none }
    ∧ verify_parquet true okContent (Except.ok dfKeys)
          (some (Except.ok { colNames := dfExtraCol.colNames,
                             dtypes := dfExtraCol.dtypes, rows := [] })) =
        verify_parquet true okContent (Except.ok dfKeys) (some (Except.ok dfExtraCol)) :=
  ⟨⟨by decide, by decide, by decide, by decide⟩,
    (verify_column_mismatch_short_circuits okContent dfKeys dfExtraCol
      (by decide) (by decide) (by decide) (by decide)).1,
    (verify_column_mismatch_short_circuits okContent dfKeys dfExtraCol
      (by decide) (by decide) (by decide) (by decide)).2 []⟩

/-- Counterexample to C8 as stated: the file is read successfully and
the comparison reports a mismatch (extra expected column), yet the
result carries no data sample — the early return of line 79 skips the
sample assignment of line 105. -/
theorem data_sample_missing_counterexample :
    verify_parquet true okContent (Except.ok dfKeys) (some (Except.ok dfExtraCol)) =
      PyOutcome.returned
        { success := true,
          error := some (columnMismatchMsg ["x", "y"] ["x", "y", "z"]),
          row_count := 2, columns := ["x", "y"],
          data_matches := some false, data_sample := none,
          actual_data := none, expected_data := none } := by decide

/-- C8 (amended): whenever the file is read successfully the result
carries up to 5 sample rows — with no expected data, with an expected
payload that fails to parse, and with a completed comparison whatever
its outcome — except on the column-set mismatch early return, which
skips the sample (see the counterexample). -/
theorem verify_data_sample_included (c : List Nat) (df : DataFrame)
    (ea : Option (Except String DataFrame))
    (h8 : 8 ≤ c.length) (hm1 : c.take 4 = PAR1) (hm2 : c.drop (c.length - 4) = PAR1)
    (hok : ∀ edf : DataFrame, ea = some (Except.ok edf) →
      nameSetEq df.colNames edf.colNames) :
    ∃ r, verify_parquet true c (Except.ok df) ea = PyOutcome.returned r
      ∧ r.data_sample = some (df.rows.take 5) := by
  rw [verify_reaches_read c df ea h8 hm1 hm2]
  refine ⟨_, rfl, ?_⟩
  unfold verifyWithDF
  cases ea with
  | none => rfl
  | some parsed =>
    cases parsed with
    | error e => rfl
    | ok edf =>
      obtain ⟨m, err, act, exp, hcmp⟩ :=
        compareData_cmp_of_setEq df edf (hok edf rfl)
      simp only [hcmp]

/-- Witness for C8 (amended) at `okContent`, `dfKeys`, no expected
data. -/
theorem verify_data_sample_included_witness :
    (8 ≤ okContent.length ∧ okContent.take 4 = PAR1
      ∧ okContent.drop (okContent.length - 4) = PAR1)
    ∧ ∃ r, verify_parquet true okContent (Except.ok dfKeys) none =
        PyOutcome.returned r
      ∧ r.data_sample = some (dfKeys.rows.take 5) :=
  ⟨⟨by decide, by decide, by decide⟩,
    verify_data_sample_included okContent dfKeys none
      (by decide) (by decide) (by decide) (fun edf h => nomatch h)⟩

theorem set_magic_broken (cs : List Nat) (i b : Nat)
    (h8 : 8 ≤ cs.length) (hm1 : cs.take 4 = PAR1) (hm2 : cs.drop (cs.length - 4) = PAR1)
    (hi : i < 4 ∨ (cs.length - 4 ≤ i ∧ i < cs.length)) (hb : b ≠ cs.getD i 0) :
    ¬ ((cs.set i b).take 4 = PAR1 ∧
        (cs.set i b).drop ((cs.set i b).length - 4) = PAR1) := by
  rintro ⟨h1, h2⟩
  rcases hi with hi4 | ⟨hge, hlt⟩
  · have e1 : ((cs.set i b).take 4)[i]? = some b := by
      rw [List.getElem?_take, if_pos hi4, List.getElem?_set_self (by omega)]
    have e2 : (cs.take 4)[i]? = cs[i]? := by
      rw [List.getElem?_take, if_pos hi4]
    rw [h1, ← hm1, e2] at e1
    have hgd : cs.getD i 0 = b := by
      rw [List.getD_eq_getElem?_getD, e1]
      rfl
    exact hb hgd.symm
  · have e1 : ((cs.set i b).drop ((cs.set i b).length - 4))[i - (cs.length - 4)]? = some b := by
      rw [List.length_set, List.getElem?_drop]
      have harith : cs.length - 4 + (i - (cs.length - 4)) = i := by omega
      rw [harith, List.getElem?_set_self (by omega)]
    have e2 : (cs.drop (cs.length - 4))[i - (cs.length - 4)]? = cs[i]? := by
      rw [List.getElem?_drop]
      congr 1
      omega
    rw [h2, ← hm2, e2] at e1
    have hgd : cs.getD i 0 = b := by
      rw [List.getD_eq_getElem?_getD, e1]
      rfl
    exact hb hgd.symm

/-- C3: a magic mismatch is advisory in the analysis tool — the warning
event appears exactly when a marker is wrong, and the footer size and
window are computed either way — but fatal in the verification tool:
flipping any byte among the first or last 4 of a conforming file makes
`verify_parquet` print a result with `success = false` and the
magic-byte error and exit with code 1, whatever the reader or expected
data would have been. -/
theorem magic_advisory_vs_fatal :
    (∀ c : List Nat,
      (AnalyzeEvent.magicWarning ∈ analyze_parquet_file c ↔
        ¬ (c.take 4 = PAR1 ∧ pySlice c (-4) (c.length : Int) = PAR1))
      ∧ AnalyzeEvent.footerSize (footer_metadata_size c) ∈ analyze_parquet_file c
      ∧ AnalyzeEvent.footerDump (footer_metadata c) ∈ analyze_parquet_file c)
    ∧ (∀ (c : List Nat) (i b : Nat) (rr : Except String DataFrame)
        (ea : Option (Except String DataFrame)),
        8 ≤ c.length → c.take 4 = PAR1 → c.drop (c.length - 4) = PAR1 →
        (i < 4 ∨ (c.length - 4 ≤ i ∧ i < c.length)) → b ≠ c.getD i 0 →
        verify_parquet true (c.set i b) rr ea =
          PyOutcome.exited
            { initResult with
                error := some "Not a Parquet file. Missing PAR1 magic bytes." } 1
        ∧ ({ initResult with
              error := some "Not a Parquet file. Missing PAR1 magic bytes." } : VResult).success
            = false) := by
  constructor
  · intro c
    by_cases hc : c.take 4 = PAR1 ∧ pySlice c (-4) (c.length : Int) = PAR1
    · simp [analyze_parquet_file, hc]
    · simp [analyze_parquet_file, hc]
  · intro c i b rr ea h8 hm1 hm2 hi hb
    refine ⟨?_, rfl⟩
    unfold verify_parquet
    rw [if_neg (by simp), if_neg (by rw [List.length_set]; omega),
      if_pos (set_magic_broken c i b h8 hm1 hm2 hi hb)]

/-- Witness for C3: flipping byte 0 of the conforming `okContent` to 0
makes verification exit 1 with the magic error and `success = false`. -/
theorem magic_advisory_vs_fatal_witness :
    (8 ≤ okContent.length ∧ okContent.take 4 = PAR1
      ∧ okContent.drop (okContent.length - 4) = PAR1
      ∧ (0 < 4 ∨ (okContent.length - 4 ≤ 0 ∧ 0 < okContent.length))
      ∧ 0 ≠ okContent.getD 0 0)
    ∧ (verify_parquet true (okContent.set 0 0) (Except.error "") none =
        PyOutcome.exited
          { initResult with
              error := some "Not a Parquet file. Missing PAR1 magic bytes." } 1
      ∧ ({ initResult with
            error := some "Not a Parquet file. Missing PAR1 magic bytes." } : VResult).success
          = false) :=
  ⟨⟨by decide, by decide, by decide, by decide, by decide⟩,
    magic_advisory_vs_fatal.2 okContent 0 0 (Except.error "") none
      (by decide) (by decide) (by decide) (by decide) (by decide)⟩

/-- Counterexample to C4 as stated: the tool is invoked with a path
argument and the file exists, but it is only 3 bytes — the claim
predicts exit code 0 (tool ran; file merely reported invalid) while
the code calls `sys.exit(1)`. -/
theorem exit_code_small_file_counterexample :
    pyarrow_verify_main true true [0, 0, 0] (Except.error "") none = 1
    ∧ ([0, 0, 0] : List Nat).length < 8 := by decide

/-- C4 (amended): the process exits 0 exactly when a path argument was
given, the file exists, it is at least 8 bytes and carries the PAR1
magic at both ends — regardless of whether the PyArrow read or the
expected-data comparison succeeds; it exits 1 when the path argument
is missing, the file does not exist, the file is too small, or a magic
marker is wrong. -/
theorem exit_code_classification (hasPath fe : Bool) (c : List Nat)
    (rr : Except String DataFrame) (ea : Option (Except String DataFrame)) :
    pyarrow_verify_main hasPath fe c rr ea = 0 ↔
      (hasPath = true ∧ fe = true ∧ 8 ≤ c.length ∧
        c.take 4 = PAR1 ∧ c.drop (c.length - 4) = PAR1) := by
  cases hasPath with
  | false => simp [pyarrow_verify_main]
  | true =>
    cases fe with
    | false => simp [pyarrow_verify_main, verify_parquet]
    | true =>
      by_cases h8 : c.length < 8
      · simp only [pyarrow_verify_main, verify_parquet]
        rw [if_neg (by simp), if_pos h8]
        simp
        omega
      · by_cases hm : c.take 4 = PAR1 ∧ c.drop (c.length - 4) = PAR1
        · simp only [pyarrow_verify_main, verify_parquet]
          rw [if_neg (by simp), if_neg h8, if_neg (not_not_intro hm)]
          rcases rr with e | df <;> simp [hm.1, hm.2] <;> omega
        · simp only [pyarrow_verify_main, verify_parquet]
          rw [if_neg (by simp), if_neg h8, if_pos hm]
          simp
          rintro _ ha hb
          exact hm ⟨ha, hb⟩

theorem Value.le_total_thm (a b : Value) : Value.le a b = true ∨ Value.le b a = true := by
  cases a with
  | vint x =>
    cases b with
    | vint y => simp only [Value.le, decide_eq_true_eq]; omega
    | vstr s => simp [Value.le]
  | vstr s =>
    cases b with
    | vint y => simp [Value.le]
    | vstr t => simp only [Value.le, decide_eq_true_eq]; exact le_total s t

theorem Value.le_trans_thm (a b d : Value)
    (h1 : Value.le a b = true) (h2 : Value.le b d = true) : Value.le a d = true := by
  cases a with
  | vint x =>
    cases b with
    | vint y =>
      cases d with
      | vint z =>
        simp only [Value.le, decide_eq_true_eq] at *
        omega
      | vstr t => simp [Value.le]
    | vstr s =>
      cases d with
      | vint z => simp [Value.le] at h2
      | vstr t => simp [Value.le]
  | vstr s =>
    cases b with
    | vint y => simp [Value.le] at h1
    | vstr t =>
      cases d with
      | vint z => simp [Value.le] at h2
      | vstr u =>
        simp only [Value.le, decide_eq_true_eq] at *
        exact le_trans h1 h2

theorem Value.le_antisymm_thm (a b : Value)
    (h1 : Value.le a b = true) (h2 : Value.le b a = true) : a = b := by
  cases a with
  | vint x =>
    cases b with
    | vint y =>
      simp only [Value.le, decide_eq_true_eq] at h1 h2
      exact congrArg Value.vint (le_antisymm h1 h2)
    | vstr s => simp [Value.le] at h2
  | vstr s =>
    cases b with
    | vint y => simp [Value.le] at h1
    | vstr t =>
      simp only [Value.le, decide_eq_true_eq] at h1 h2
      exact congrArg Value.vstr (le_antisymm h1 h2)

instance : IsTotal (List Value) rowLe :=
  ⟨fun a b => Value.le_total_thm (firstCell a) (firstCell b)⟩

instance : IsTrans (List Value) rowLe :=
  ⟨fun _ _ _ h1 h2 => Value.le_trans_thm _ _ _ h1 h2⟩

/-- Strict version of `rowLe`, used only to identify sorted
permutations with pairwise-distinct keys. -/
def rowLt (a b : List Value) : Prop := rowLe a b ∧ ¬ rowLe b a

instance : IsAntisymm (List Value) rowLt :=
  ⟨fun _ _ h1 h2 => absurd h2.1 h1.2⟩

theorem sorted_rowLt_of_sorted (l : List (List Value)) (hs : List.Sorted rowLe l)
    (hnd : l.Pairwise (fun a b => firstCell a ≠ firstCell b)) :
    List.Sorted rowLt l :=
  (hs.and hnd).imp (fun h =>
    ⟨h.1, fun hba => h.2 (Value.le_antisymm_thm _ _ h.1 hba)⟩)

theorem insertionSort_eq_of_perm_of_distinct_keys (l1 l2 : List (List Value))
    (hperm : l1.Perm l2) (hnd : l1.Pairwise (fun a b => firstCell a ≠ firstCell b)) :
    List.insertionSort rowLe l1 = List.insertionSort rowLe l2 := by
  have hsym : Symmetric (fun a b : List Value => firstCell a ≠ firstCell b) :=
    fun a b h e => h e.symm
  have hp : (List.insertionSort rowLe l1).Perm (List.insertionSort rowLe l2) :=
    (List.perm_insertionSort rowLe l1).trans
      (hperm.trans (List.perm_insertionSort rowLe l2).symm)
  have hnd1 : (List.insertionSort rowLe l1).Pairwise
      (fun a b => firstCell a ≠ firstCell b) :=
    ((List.perm_insertionSort rowLe l1).pairwise_iff (fun {a b} h => hsym h)).mpr hnd
  have hnd2 : (List.insertionSort rowLe l2).Pairwise
      (fun a b => firstCell a ≠ firstCell b) :=
    (hp.pairwise_iff (fun {a b} h => hsym h)).mp hnd1
  exact List.eq_of_perm_of_sorted hp
    (sorted_rowLt_of_sorted _ (List.sorted_insertionSort rowLe l1) hnd1)
    (sorted_rowLt_of_sorted _ (List.sorted_insertionSort rowLe l2) hnd2)

/-- Counterexample to C7 as stated: `eTie` holds exactly the rows of
`dfTie` in a different order (same column sets), yet `data_matches` is
`false` — both rows share the first-column sort key `1`, so the
first-column sort cannot align them. -/
theorem sort_tie_counterexample :
    nameSetEq dfTie.colNames eTie.colNames
    ∧ dfTie.rows.Perm eTie.rows
    ∧ dfTie.rows ≠ eTie.rows
    ∧ verify_parquet true okContent (Except.ok dfTie) (some (Except.ok eTie)) =
        PyOutcome.returned
          { success := true, error := none, row_count := 2, columns := ["x", "y"],
            data_matches := some false,
            data_sample := some dfTie.rows,
            actual_data := some dfTie.rows, expected_data := some eTie.rows } := by decide

/-- C7 (amended): when the column-name sets match and — after the
code's own reorder and one-time integer-width coercion — the expected
rows are a permutation of the file's rows with like dtypes, and the
file's first-column values are pairwise distinct, the first-column
sort aligns both sides and `data_matches` is `true`.  With duplicate
first-column keys the sort need not align equal multisets (see the
counterexample). -/
theorem verify_order_insensitive_distinct_keys (c : List Nat) (df edf e2 : DataFrame)
    (h8 : 8 ≤ c.length) (hm1 : c.take 4 = PAR1) (hm2 : c.drop (c.length - 4) = PAR1)
    (hset : nameSetEq df.colNames edf.colNames)
    (hcast : castDF df.dtypes (reorderDF df.colNames edf) = Except.ok e2)
    (hdt : e2.dtypes = df.dtypes)
    (hcols : df.colNames ≠ [])
    (hperm : e2.rows.Perm df.rows)
    (hkeys : df.rows.Pairwise (fun a b => firstCell a ≠ firstCell b)) :
    verify_parquet true c (Except.ok df) (some (Except.ok edf)) =
      PyOutcome.returned
        { success := true, error := none, row_count := df.rows.length,
          columns := df.colNames, data_matches := some true,
          data_sample := some (df.rows.take 5),
          actual_data := none, expected_data := none } := by
  have hecol : e2.colNames = df.colNames := by
    unfold castDF at hcast
    rcases hr : castRows df.dtypes (reorderDF df.colNames edf).rows with err | rs
    · rw [hr] at hcast
      exact Except.noConfusion hcast
    · rw [hr] at hcast
      cases hcast
      rfl
  have hsort : sort_values df = sort_values e2 := by
    unfold sort_values
    rw [hecol, hdt]
    exact congrArg (DataFrame.mk df.colNames df.dtypes)
      (insertionSort_eq_of_perm_of_distinct_keys df.rows e2.rows hperm.symm hkeys)
  have hcmp : compareData df (Except.ok edf) = CompareOut.cmp true none none none := by
    simp only [compareData, hset, if_true, hcast]
    rcases hcn : df.colNames with _ | ⟨a, t⟩
    · exact absurd hcn hcols
    · rw [if_pos hsort]
  rw [verify_reaches_read c df _ h8 hm1 hm2]
  simp only [verifyWithDF, hcmp]

/-- Witness for C7 (amended): `eKeys` holds the rows of `dfKeys` in a
different order with columns swapped; keys 1 and 2 are distinct, so
the comparison reports a match. -/
theorem verify_order_insensitive_distinct_keys_witness :
    (8 ≤ okContent.length ∧ okContent.take 4 = PAR1
      ∧ okContent.drop (okContent.length - 4) = PAR1
      ∧ nameSetEq dfKeys.colNames eKeys.colNames
      ∧ castDF dfKeys.dtypes (reorderDF dfKeys.colNames eKeys) = Except.ok eKeysAligned
      ∧ eKeysAligned.dtypes = dfKeys.dtypes
      ∧ eKeysAligned.rows.Perm dfKeys.rows)
    ∧ verify_parquet true okContent (Except.ok dfKeys) (some (Except.ok eKeys)) =
        PyOutcome.returned
          { success := true, error := none, row_count := dfKeys.rows.length,
            columns := dfKeys.colNames, data_matches := some true,
            data_sample := some (dfKeys.rows.take 5),
            actual_data := none, expected_data := none } :=
  ⟨⟨by decide, by decide, by decide, by decide, by rfl, by decide, by decide⟩,
    verify_order_insensitive_distinct_keys okContent dfKeys eKeys eKeysAligned
      (by decide) (by decide) (by decide) (by decide) (by rfl) (by decide)
      (by decide) (by decide) (by decide)⟩
